import Mathlib

/-!
Shallow embedding of the live-update fan-out core of the ask-me-anything
service (Go sources: internal/api/api.go, internal/schema/message.go,
internal/schema/room.go), together with theorems settling the spec claims.

Connections (`*websocket.Conn` pointers) are modelled as `Option Nat`:
`some n` is a live connection identity, `none` is the nil pointer that the
gorilla upgrader yields alongside an error. Cancellation handles
(`context.CancelFunc`) are modelled by `Nat` identities. The per-handler
side effects (lock/unlock, sends, logs, HTTP responses, registrations) are
recorded as explicit action traces.
-/

namespace AskMeAnything

/-- JSON values, as produced by Go `encoding/json` marshalling. -/
inductive JValue where
  | str (s : String)
  | num (n : Int)
  | bool (b : Bool)
  | null
  | obj (fields : List (String × JValue))
  | arr (elems : List JValue)

/-- Go `encoding/json` escaping of a single character (the subset relevant
to this repository: quote, backslash, newline; other characters pass
through unchanged). -/
def escapeChar (c : Char) : String :=
  if c = '"' then "\\\""
  else if c = '\\' then "\\\\"
  else if c = '\n' then "\\n"
  else String.singleton c

/-- Escape a string for inclusion in a JSON document. -/
def escapeString (s : String) : String :=
  String.join (s.data.map escapeChar)

mutual

/-- Render a JSON value to its wire text, matching Go `json.Marshal`
output (no added whitespace, struct fields in declaration order). -/
def renderJson : JValue → String
  | JValue.str s => "\"" ++ escapeString s ++ "\""
  | JValue.num n => toString n
  | JValue.bool b => if b then "true" else "false"
  | JValue.null => "null"
  | JValue.obj fs => "\x7b" ++ renderFields fs ++ "\x7d"
  | JValue.arr es => "[" ++ renderElems es ++ "]"

/-- Render the fields of a JSON object, comma separated. -/
def renderFields : List (String × JValue) → String
  | [] => ""
  | [f] => "\"" ++ escapeString f.1 ++ "\":" ++ renderJson f.2
  | f :: g :: rest =>
      "\"" ++ escapeString f.1 ++ "\":" ++ renderJson f.2 ++ "," ++ renderFields (g :: rest)

/-- Render the elements of a JSON array, comma separated. -/
def renderElems : List JValue → String
  | [] => ""
  | [e] => renderJson e
  | e :: f :: rest => renderJson e ++ "," ++ renderElems (f :: rest)

end

/-- The keys of a JSON object (empty for non-objects). -/
def objKeys : JValue → List String
  | JValue.obj fs => fs.map Prod.fst
  | _ => []

/-- Look up a field of a JSON object by key. -/
def objLookup (k : String) : JValue → Option JValue
  | JValue.obj fs => (fs.find? (fun f => f.1 == k)).map Prod.snd
  | _ => none

/-! ## Event model (internal/schema/message.go, api.go kind constants) -/

def KindMessageCreated : String := "message_created"
def KindMessageReactionIncreased : String := "message_reaction_increased"
def KindMessageReactionDecreased : String := "message_reaction_decreased"
def KindMessageAnswered : String := "message_answered"

/-- The `any`-typed `Value` field of `schema.Message`: one of the three
event structs from internal/schema/message.go. None of them carries json
tags, so Go marshals their exported field names verbatim. -/
inductive EventValue where
  | created (id message : String)
  | reactionChanged (id : String) (count : Int)
  | answered (id : String)

/-- `schema.Message`: `Kind` tagged `json:"kind"`, `Value` tagged
`json:"value"`, `RoomID` tagged `json:"-"` (excluded from marshalling). -/
structure Message where
  Kind : String
  Value : EventValue
  RoomID : String

/-- JSON form of an event value. `MessageCreatedEvent`,
`MessageReactionCountChangedEvent` and `MessageAnsweredEvent` carry no
json tags, so the keys are the Go field names `ID`, `Message`, `Count`. -/
def valueToJson : EventValue → JValue
  | EventValue.created id message =>
      JValue.obj [("ID", JValue.str id), ("Message", JValue.str message)]
  | EventValue.reactionChanged id count =>
      JValue.obj [("ID", JValue.str id), ("Count", JValue.num count)]
  | EventValue.answered id =>
      JValue.obj [("ID", JValue.str id)]

/-- JSON form of a `schema.Message` as written by `conn.WriteJSON`:
the `kind` and `value` fields in declaration order; `RoomID` is dropped
by its `json:"-"` tag. -/
def messageToJson (m : Message) : JValue :=
  JValue.obj [("kind", JValue.str m.Kind), ("value", valueToJson m.Value)]

/-! ## Subscriber registry (Handler.subscribers, api.go) -/

/-- A `*websocket.Conn` pointer: `none` is the nil pointer. -/
abbrev Conn := Option Nat

/-- `Handler.subscribers : map[string]map[*websocket.Conn]context.CancelFunc`,
modelled as an association list from room id to an association list from
connection to cancellation-handle identity. -/
structure Registry where
  entries : List (String × List (Conn × Nat))
deriving DecidableEq

def emptyRegistry : Registry := ⟨[]⟩

/-- `h.subscribers[room]` with its `ok` flag: `none` when the room key is
absent. -/
def lookupRoom (rgy : Registry) (room : String) : Option (List (Conn × Nat)) :=
  (rgy.entries.find? (fun e => e.1 == room)).map Prod.snd

/-- Insert or overwrite `conn ↦ cancel` in one room's map
(`h.subscribers[roomID.String()][conn] = cancel`). -/
def insertConn (conn : Conn) (cancelId : Nat) :
    List (Conn × Nat) → List (Conn × Nat)
  | [] => [(conn, cancelId)]
  | p :: rest =>
      if p.1 = conn then (conn, cancelId) :: rest
      else p :: insertConn conn cancelId rest

/-- Remove a connection key from one room's map (`delete(m, conn)`). -/
def removeConn (conn : Conn) : List (Conn × Nat) → List (Conn × Nat)
  | [] => []
  | p :: rest =>
      if p.1 = conn then removeConn conn rest
      else p :: removeConn conn rest

/-- Rewrite the value stored under `room`, leaving every other entry
untouched (map indexing `h.subscribers[room]` on the write side). -/
def updateRoom (room : String) (g : List (Conn × Nat) → List (Conn × Nat))
    (entries : List (String × List (Conn × Nat))) :
    List (String × List (Conn × Nat)) :=
  entries.map (fun e => if e.1 = room then (e.1, g e.2) else e)

/-- Registration, as performed inline by `handleSubscribe` (api.go:122-129):
under the lock, create the room's inner map if absent, then upsert the
connection with its cancellation handle. -/
def register (room : String) (conn : Conn) (cancelId : Nat) (rgy : Registry) :
    Registry :=
  let withRoom :=
    match lookupRoom rgy room with
    | none => rgy.entries ++ [(room, [])]
    | some _ => rgy.entries
  ⟨updateRoom room (insertConn conn cancelId) withRoom⟩

/-- Deregistration, as performed inline by `handleSubscribe`
(api.go:133-135): `delete(h.subscribers[roomID.String()], conn)` — a
no-op when the room key or the connection is absent (Go `delete` on a nil
or missing-key map does nothing). -/
def deregister (room : String) (conn : Conn) (rgy : Registry) : Registry :=
  ⟨updateRoom room (removeConn conn) rgy.entries⟩

/-- The members of a room's set: `h.subscribers[room]`, empty when the
key is absent. -/
def roomMembers (rgy : Registry) (room : String) : List (Conn × Nat) :=
  (lookupRoom rgy room).getD []

/-- The connections currently registered for a room. -/
def roomConns (rgy : Registry) (room : String) : List Conn :=
  (roomMembers rgy room).map Prod.fst

/-! ## Action traces -/

/-- One observable side effect of a handler: mutex operations, a JSON
write to a connection (with the rendered frame), a cancellation-handle
invocation, slog calls, an HTTP response via `c.PureJSON`, the inline
registration/deregistration steps of `handleSubscribe`, its block on
`<-ctx.Done()`, and the deferred `conn.Close()`. -/
inductive Act where
  | lock
  | unlock
  | send (conn : Conn) (frame : String)
  | cancelCall (cancelId : Nat)
  | logError (text : String)
  | logWarn (text : String)
  | logInfo (text : String)
  | respond (status : Nat) (body : JValue)
  | registerConn (room : String) (conn : Conn)
  | blockOnCtx
  | deregisterConn (room : String) (conn : Conn)
  | closeConn (conn : Conn)

/-- Connections that received a `WriteJSON` attempt, in trace order. -/
def sendTargets : List Act → List Conn
  | [] => []
  | Act.send c _ :: rest => c :: sendTargets rest
  | _ :: rest => sendTargets rest

/-- Rendered frames written (attempted) to connections, in trace order. -/
def sendFrames : List Act → List String
  | [] => []
  | Act.send _ f :: rest => f :: sendFrames rest
  | _ :: rest => sendFrames rest

/-- Cancellation handles invoked, in trace order. -/
def cancelTargets : List Act → List Nat
  | [] => []
  | Act.cancelCall c :: rest => c :: cancelTargets rest
  | _ :: rest => cancelTargets rest

/-- Error-log lines emitted, in trace order. -/
def errorLogs : List Act → List String
  | [] => []
  | Act.logError t :: rest => t :: errorLogs rest
  | _ :: rest => errorLogs rest

/-- Whether an action is a mutex operation. -/
def isLockAct : Act → Bool
  | Act.lock => true
  | Act.unlock => true
  | _ => false

/-- Whether an action is an HTTP response to the caller. -/
def isRespondAct : Act → Bool
  | Act.respond _ _ => true
  | _ => false

/-- Whether an action is a registration into the subscriber map. -/
def isRegisterAct : Act → Bool
  | Act.registerConn _ _ => true
  | _ => false

/-- `true` when some `WriteJSON` in the trace happens while the mutex is
held (`d` counts currently-held lock acquisitions). -/
def sendWhileLocked (d : Nat) : List Act → Bool
  | [] => false
  | Act.lock :: rest => sendWhileLocked (d + 1) rest
  | Act.unlock :: rest => sendWhileLocked (d - 1) rest
  | Act.send _ _ :: rest => decide (0 < d) || sendWhileLocked d rest
  | _ :: rest => sendWhileLocked d rest

/-! ## Publisher (Handler.notifyClients, api.go:76-91) -/

/-- The per-subscriber loop body of `notifyClients`: a `WriteJSON`
attempt, and on failure (`sendOk` is the outcome oracle for the write) a
`slog.Error` followed by invoking that connection's cancellation handle.
The loop is never aborted. -/
def notifyLoop (frame : String) (sendOk : Conn → Bool) :
    List (Conn × Nat) → List Act
  | [] => []
  | p :: rest =>
      Act.send p.1 frame ::
        (if sendOk p.1 then [] else
          [Act.logError "failed to send message to client",
           Act.cancelCall p.2]) ++ notifyLoop frame sendOk rest

/-- `Handler.notifyClients` (api.go:76-91): lock the mutex (released by
`defer` on return), look up the event's room; if the key is absent or
the inner map is empty, return; otherwise iterate the room's map writing
the serialized message to each connection. The method has no return
value and never writes to `h.subscribers`. -/
def notifyClientsTrace (rgy : Registry) (msg : Message) (sendOk : Conn → Bool) :
    List Act :=
  Act.lock ::
    (match lookupRoom rgy msg.RoomID with
     | none => [Act.unlock]
     | some subs =>
        if subs.length = 0 then [Act.unlock]
        else notifyLoop (renderJson (messageToJson msg)) sendOk subs ++ [Act.unlock])

/-- `notifyClients` paired with the registry it leaves behind: the method
only reads the subscriber map, so the registry passes through unchanged. -/
def notifyClientsRun (rgy : Registry) (msg : Message) (sendOk : Conn → Bool) :
    Registry × List Act :=
  (rgy, notifyClientsTrace rgy msg sendOk)

/-! ## Query-layer oracles -/

/-- Outcome of a pgstore query whose error is tested against
`pgx.ErrNoRows`: success, no rows, or another database failure. -/
inductive DbResult (α : Type) where
  | ok (a : α)
  | noRows
  | fail

/-! ## Connection session (Handler.handleSubscribe, api.go:93-136) -/

/-- Result of running `handleSubscribe` to completion: its action trace,
the registry while the session blocks on `<-ctx.Done()`, and the registry
after the handler returns. -/
structure SubscribeResult where
  acts : List Act
  duringActive : Registry
  final : Registry

/-- `Handler.handleSubscribe` (api.go:93-136). Inputs: the uri-binding
outcome, the `GetRoom` outcome, and the upgrader outcome (`Except.ok n`
yields connection `some n`; on `Except.error` the gorilla upgrader
returns the nil connection `none`). `cancelId` identifies the
`context.CancelFunc` created by `context.WithCancel`.

Faithful to the source: the upgrade-failure branch (api.go:114-117) logs
a warning and writes a 400 response but does NOT return, so control falls
through to registration with the nil connection, blocks until the context
is cancelled, deregisters, and finally runs the deferred `conn.Close()`
on the nil connection. -/
def handleSubscribe (uriErr : Option String) (roomRes : DbResult Unit)
    (upgradeRes : Except String Nat) (room : String) (cancelId : Nat)
    (rgy : Registry) : SubscribeResult :=
  match uriErr with
  | some e =>
      ⟨[Act.respond 400 (JValue.obj [("error", JValue.str e)])], rgy, rgy⟩
  | none =>
    match roomRes with
    | DbResult.noRows =>
        ⟨[Act.respond 404 (JValue.str "room not found")], rgy, rgy⟩
    | DbResult.fail =>
        ⟨[Act.logError "failed to get room",
          Act.respond 500 (JValue.str "something went wrong")], rgy, rgy⟩
    | DbResult.ok _ =>
      let (upgradeActs, conn) : List Act × Conn :=
        match upgradeRes with
        | Except.ok n => ([], some n)
        | Except.error _ =>
            ([Act.logWarn "failed to upgrade connection",
              Act.respond 400 (JValue.str "something went wrong")], none)
      let registered := register room conn cancelId rgy
      let afterExit := deregister room conn registered
      ⟨upgradeActs ++
        [Act.lock, Act.logInfo "new client connected",
         Act.registerConn room conn, Act.unlock,
         Act.blockOnCtx,
         Act.lock, Act.deregisterConn room conn, Act.unlock,
         Act.closeConn conn],
       registered, afterExit⟩

/-! ## Write-request handlers (api.go:199-245, 333-487)

Each handler validates the uri, checks existence via the query layer,
performs its mutation, then launches `go h.notifyClients(...)` —
fire-and-forget — and issues the HTTP response from the query results
alone. The model returns the response/log trace together with the
message handed to the detached `notifyClients` goroutine (`none` on the
error paths that never reach the `go` statement). -/

/-- `Handler.handleCreateRoomMessage` (api.go:199-245). `bodyRes` is the
`ShouldBindJSON` outcome (error text, or the bound message text);
`insertRes` is the `InsertMessage` outcome (only `err != nil` is
tested, yielding the new message id on success). -/
def handleCreateRoomMessage (uriErr : Option String) (roomRes : DbResult Unit)
    (bodyRes : Except String String) (insertRes : Except Unit String)
    (room : String) : List Act × Option Message :=
  match uriErr with
  | some e => ([Act.respond 400 (JValue.str e)], none)
  | none =>
    match roomRes with
    | DbResult.noRows => ([Act.respond 404 (JValue.str "room not found")], none)
    | DbResult.fail =>
        ([Act.logError "failed to get room",
          Act.respond 500 (JValue.str "something went wrong")], none)
    | DbResult.ok _ =>
      match bodyRes with
      | Except.error e => ([Act.respond 400 (JValue.str e)], none)
      | Except.ok text =>
        match insertRes with
        | Except.error _ =>
            ([Act.logError "failed to insert message",
              Act.respond 500 (JValue.str "something went wrong")], none)
        | Except.ok messageId =>
            ([Act.respond 201 (JValue.obj [("id", JValue.str messageId)])],
             some ⟨KindMessageCreated, EventValue.created messageId text, room⟩)

/-- `Handler.handleReactToMessage` (api.go:333-385). `reactRes` is the
`ReactToMessage` outcome (new count on success). -/
def handleReactToMessage (uriErr : Option String) (roomRes : DbResult Unit)
    (msgRes : DbResult Unit) (reactRes : Except Unit Int)
    (room messageId : String) : List Act × Option Message :=
  match uriErr with
  | some e => ([Act.respond 400 (JValue.str e)], none)
  | none =>
    match roomRes with
    | DbResult.noRows => ([Act.respond 404 (JValue.str "room not found")], none)
    | DbResult.fail =>
        ([Act.logError "failed to get room",
          Act.respond 500 (JValue.str "something went wrong")], none)
    | DbResult.ok _ =>
      match msgRes with
      | DbResult.noRows =>
          ([Act.respond 404 (JValue.str "message not found")], none)
      | DbResult.fail =>
          ([Act.logError "failed to get message",
            Act.respond 500 (JValue.str "something went wrong")], none)
      | DbResult.ok _ =>
        match reactRes with
        | Except.error _ =>
            ([Act.logError "failed to react to message",
              Act.respond 500 (JValue.str "something went wrong")], none)
        | Except.ok count =>
            ([Act.respond 200 (JValue.obj [("count", JValue.num count)])],
             some ⟨KindMessageReactionIncreased,
                   EventValue.reactionChanged messageId count, room⟩)

/-- `Handler.handleRemoveReactionFromMessage` (api.go:387-437). -/
def handleRemoveReactionFromMessage (uriErr : Option String)
    (roomRes : DbResult Unit) (msgRes : DbResult Unit)
    (removeRes : Except Unit Int) (room messageId : String) :
    List Act × Option Message :=
  match uriErr with
  | some e => ([Act.respond 400 (JValue.str e)], none)
  | none =>
    match roomRes with
    | DbResult.noRows => ([Act.respond 404 (JValue.str "room not found")], none)
    | DbResult.fail =>
        ([Act.logError "failed to get room",
          Act.respond 500 (JValue.str "something went wrong")], none)
    | DbResult.ok _ =>
      match msgRes with
      | DbResult.noRows =>
          ([Act.respond 404 (JValue.str "message not found")], none)
      | DbResult.fail =>
          ([Act.logError "failed to get message",
            Act.respond 500 (JValue.str "something went wrong")], none)
      | DbResult.ok _ =>
        match removeRes with
        | Except.error _ =>
            ([Act.logError "failed to remove reaction from message",
              Act.respond 500 (JValue.str "something went wrong")], none)
        | Except.ok count =>
            ([Act.respond 200 (JValue.obj [("count", JValue.num count)])],
             some ⟨KindMessageReactionDecreased,
                   EventValue.reactionChanged messageId count, room⟩)

/-- `Handler.handleMarkMessageAsAnswered` (api.go:439-487). -/
def handleMarkMessageAsAnswered (uriErr : Option String)
    (roomRes : DbResult Unit) (msgRes : DbResult Unit)
    (markRes : Except Unit Unit) (room messageId : String) :
    List Act × Option Message :=
  match uriErr with
  | some e => ([Act.respond 400 (JValue.str e)], none)
  | none =>
    match roomRes with
    | DbResult.noRows => ([Act.respond 404 (JValue.str "room not found")], none)
    | DbResult.fail =>
        ([Act.logError "failed to get room",
          Act.respond 500 (JValue.str "something went wrong")], none)
    | DbResult.ok _ =>
      match msgRes with
      | DbResult.noRows =>
          ([Act.respond 404 (JValue.str "message not found")], none)
      | DbResult.fail =>
          ([Act.logError "failed to get message",
            Act.respond 500 (JValue.str "something went wrong")], none)
      | DbResult.ok _ =>
        match markRes with
        | Except.error _ =>
            ([Act.logError "failed to mark message as answered",
              Act.respond 500 (JValue.str "something went wrong")], none)
        | Except.ok _ =>
            ([Act.respond 200 JValue.null],
             some ⟨KindMessageAnswered, EventValue.answered messageId, room⟩)

/-- Run a write handler together with its detached `notifyClients`
goroutine: the first component is the handler's own outcome (response
trace and spawned message), the second is the goroutine's fan-out trace
under the given registry and send-outcome oracle. The `go` statement
detaches the goroutine, so the handler's outcome is produced whether or
not any fan-out send fails. -/
def runWithFanout (handlerOut : List Act × Option Message) (rgy : Registry)
    (sendOk : Conn → Bool) : (List Act × Option Message) × List Act :=
  (handlerOut,
   match handlerOut.2 with
   | none => []
   | some m => notifyClientsTrace rgy m sendOk)

/-! ## Message read endpoints (api.go:247-331, schema/message.go:31-36) -/

/-- `schema.GetMessageOutput`: json tags `id`, `theme`, `reaction_count`,
`answered` — the message text is tagged `json:"theme"`. -/
structure GetMessageOutput where
  ID : String
  Message : String
  ReactionCount : Int
  Answered : Bool

/-- JSON form of `schema.GetMessageOutput`, fields in declaration order
with their tag names. -/
def getMessageOutputToJson (o : GetMessageOutput) : JValue :=
  JValue.obj [("id", JValue.str o.ID), ("theme", JValue.str o.Message),
              ("reaction_count", JValue.num o.ReactionCount),
              ("answered", JValue.bool o.Answered)]

/-- A message row as returned by the query layer (`GetMessage` /
`GetRoomMessages`): id, text, reaction count, answered flag. -/
structure MessageRow where
  id : String
  message : String
  reactionCount : Int
  answered : Bool

/-- `Handler.handleGetRoomMessage` (api.go:292-331): after uri binding,
room lookup and message lookup succeed, responds 200 with the
`GetMessageOutput` built from the row (message id taken from the uri,
which the row matched). -/
def handleGetRoomMessage (uriErr : Option String) (roomRes : DbResult Unit)
    (msgRes : DbResult MessageRow) (messageId : String) : List Act :=
  match uriErr with
  | some e => [Act.respond 400 (JValue.str e)]
  | none =>
    match roomRes with
    | DbResult.noRows => [Act.respond 404 (JValue.str "room not found")]
    | DbResult.fail =>
        [Act.logError "failed to get room",
         Act.respond 500 (JValue.str "something went wrong")]
    | DbResult.ok _ =>
      match msgRes with
      | DbResult.noRows => [Act.respond 404 (JValue.str "message not found")]
      | DbResult.fail =>
          [Act.logError "failed to get message",
           Act.respond 500 (JValue.str "something went wrong")]
      | DbResult.ok row =>
          [Act.respond 200 (getMessageOutputToJson
            ⟨messageId, row.message, row.reactionCount, row.answered⟩)]

/-- `Handler.handleGetRoomMessages` (api.go:247-290): on success maps
each row to a `GetMessageOutput` (nil slice becomes an empty array). -/
def handleGetRoomMessages (uriErr : Option String) (roomRes : DbResult Unit)
    (listRes : Except Unit (List MessageRow)) : List Act :=
  match uriErr with
  | some e => [Act.respond 400 (JValue.str e)]
  | none =>
    match roomRes with
    | DbResult.noRows => [Act.respond 404 (JValue.str "room not found")]
    | DbResult.fail =>
        [Act.logError "failed to get room",
         Act.respond 500 (JValue.str "something went wrong")]
    | DbResult.ok _ =>
      match listRes with
      | Except.error _ =>
          [Act.logError "failed to get room messages",
           Act.respond 500 (JValue.str "something went wrong")]
      | Except.ok rows =>
          [Act.respond 200 (JValue.arr (rows.map (fun r =>
            getMessageOutputToJson ⟨r.id, r.message, r.reactionCount, r.answered⟩)))]

/-! ## Register/deregister sequences (for the registry algebra claim) -/

/-- One registry operation on a fixed (room, connection) pair: a
registration (carrying the fresh cancellation handle that
`context.WithCancel` produced for that call) or a deregistration. -/
inductive RegOp where
  | reg (cancelId : Nat)
  | dereg
deriving DecidableEq

/-- Whether two operations are duplicates in the sense of the spec:
both registrations (of the same pair) or both deregistrations. -/
def sameKind : RegOp → RegOp → Bool
  | RegOp.reg _, RegOp.reg _ => true
  | RegOp.dereg, RegOp.dereg => true
  | _, _ => false

/-- Collapse consecutive duplicate operations, keeping the first of each
run. -/
def collapseOps : List RegOp → List RegOp
  | [] => []
  | [o] => [o]
  | o :: p :: rest =>
      if sameKind o p then collapseOps (o :: rest)
      else o :: collapseOps (p :: rest)
termination_by l => l.length

/-- Apply one operation on the (room, conn) pair to the registry. -/
def applyOp (room : String) (conn : Conn) (rgy : Registry) : RegOp → Registry
  | RegOp.reg c => register room conn c rgy
  | RegOp.dereg => deregister room conn rgy

/-- Apply a sequence of operations on the (room, conn) pair, left to
right. -/
def applySeq (room : String) (conn : Conn) (ops : List RegOp)
    (rgy : Registry) : Registry :=
  ops.foldl (applyOp room conn) rgy

/-- Effect of a registration on the key set of a room's map. -/
def insertKey (conn : Conn) (ks : List Conn) : List Conn :=
  if conn ∈ ks then ks else ks ++ [conn]

/-- Effect of a deregistration on the key set of a room's map. -/
def removeKey (conn : Conn) : List Conn → List Conn
  | [] => []
  | c :: rest => if c = conn then removeKey conn rest else c :: removeKey conn rest

/-- One operation's effect on a room's key set. -/
def applyKey (conn : Conn) (ks : List Conn) : RegOp → List Conn
  | RegOp.reg _ => insertKey conn ks
  | RegOp.dereg => removeKey conn ks

/-- Whether an action is the `<-ctx.Done()` block. -/
def isBlockAct : Act → Bool
  | Act.blockOnCtx => true
  | _ => false

/-- A concrete `message_created` event for room `R`. -/
def msg1 : Message := ⟨KindMessageCreated, EventValue.created "m1" "hi", "R"⟩

/-- A registry holding a single subscriber (connection `some 1`, cancel
handle `7`) for room `R`. -/
def reg1 : Registry := register "R" (some 1) 7 emptyRegistry

/-! ## Trace lemmas for the publisher -/

theorem sendTargets_append (l₁ l₂ : List Act) :
    sendTargets (l₁ ++ l₂) = sendTargets l₁ ++ sendTargets l₂ := by
  induction l₁ with
  | nil => rfl
  | cons a rest ih => cases a <;> simp [sendTargets, ih]

theorem cancelTargets_append (l₁ l₂ : List Act) :
    cancelTargets (l₁ ++ l₂) = cancelTargets l₁ ++ cancelTargets l₂ := by
  induction l₁ with
  | nil => rfl
  | cons a rest ih => cases a <;> simp [cancelTargets, ih]

theorem errorLogs_append (l₁ l₂ : List Act) :
    errorLogs (l₁ ++ l₂) = errorLogs l₁ ++ errorLogs l₂ := by
  induction l₁ with
  | nil => rfl
  | cons a rest ih => cases a <;> simp [errorLogs, ih]

theorem sendTargets_notifyLoop (frame : String) (sendOk : Conn → Bool) :
    ∀ subs : List (Conn × Nat),
      sendTargets (notifyLoop frame sendOk subs) = subs.map Prod.fst := by
  intro subs
  induction subs with
  | nil => rfl
  | cons p rest ih =>
      by_cases h : sendOk p.1 <;>
        simp [notifyLoop, h, sendTargets, sendTargets_append, ih]

theorem cancelTargets_notifyLoop (frame : String) (sendOk : Conn → Bool) :
    ∀ subs : List (Conn × Nat),
      cancelTargets (notifyLoop frame sendOk subs)
        = (subs.filter (fun p => !sendOk p.1)).map Prod.snd := by
  intro subs
  induction subs with
  | nil => rfl
  | cons p rest ih =>
      by_cases h : sendOk p.1 <;>
        simp [notifyLoop, h, cancelTargets, cancelTargets_append, ih]

theorem errorLogs_notifyLoop (frame : String) (sendOk : Conn → Bool) :
    ∀ subs : List (Conn × Nat),
      errorLogs (notifyLoop frame sendOk subs)
        = (subs.filter (fun p => !sendOk p.1)).map
            (fun _ => "failed to send message to client") := by
  intro subs
  induction subs with
  | nil => rfl
  | cons p rest ih =>
      by_cases h : sendOk p.1 <;>
        simp [notifyLoop, h, errorLogs, errorLogs_append, ih]

theorem isLockAct_send (c : Conn) (f : String) :
    isLockAct (Act.send c f) = false := rfl

theorem isLockAct_logError (t : String) :
    isLockAct (Act.logError t) = false := rfl

theorem isLockAct_cancelCall (c : Nat) :
    isLockAct (Act.cancelCall c) = false := rfl

theorem notifyLoop_no_lock (frame : String) (sendOk : Conn → Bool) :
    ∀ subs : List (Conn × Nat),
      (notifyLoop frame sendOk subs).all (fun a => !isLockAct a) = true := by
  intro subs
  induction subs with
  | nil => rfl
  | cons p rest ih =>
      by_cases h : sendOk p.1 <;>
        simp [notifyLoop, h, ih, List.all_append, -List.all_eq_true,
          isLockAct_send, isLockAct_logError, isLockAct_cancelCall]

theorem notifyLoop_no_respond (frame : String) (sendOk : Conn → Bool) :
    ∀ subs : List (Conn × Nat),
      (notifyLoop frame sendOk subs).filter isRespondAct = [] := by
  intro subs
  induction subs with
  | nil => rfl
  | cons p rest ih =>
      by_cases h : sendOk p.1 <;> simp [notifyLoop, h, isRespondAct, ih]

theorem notifyClients_no_respond (rgy : Registry) (msg : Message)
    (sendOk : Conn → Bool) :
    (notifyClientsTrace rgy msg sendOk).filter isRespondAct = [] := by
  unfold notifyClientsTrace
  cases h : lookupRoom rgy msg.RoomID with
  | none => rfl
  | some subs =>
      by_cases hl : subs.length = 0 <;>
        simp [hl, isRespondAct, notifyLoop_no_respond]

/-- C2 (counterexample): publishing a `message_created` event to a
registry holding one subscriber for room `R` performs its `WriteJSON`
while the registry mutex is held — `notifyClients` acquires the lock and
releases it only via `defer` on return, so the claim that the lock is
released before any network write fails at this input. -/
theorem notifyClients_send_under_lock_cx :
    sendWhileLocked 0 (notifyClientsTrace reg1 msg1 (fun _ => true)) = true := by
  decide

/-- C2 (amended): for every publish, `notifyClients` acquires the
registry mutex on entry and releases it only when it returns, so every
`WriteJSON` to a subscriber happens while the lock is held; there is no
snapshot-then-release step. -/
theorem notifyClients_lock_spans_sends (rgy : Registry) (msg : Message)
    (sendOk : Conn → Bool) :
    ∃ body, notifyClientsTrace rgy msg sendOk = Act.lock :: (body ++ [Act.unlock])
      ∧ body.all (fun a => !isLockAct a) = true := by
  unfold notifyClientsTrace
  cases h : lookupRoom rgy msg.RoomID with
  | none => exact ⟨[], rfl, rfl⟩
  | some subs =>
      by_cases hl : subs.length = 0
      · refine ⟨[], ?_, rfl⟩
        simp [hl]
      · refine ⟨notifyLoop (renderJson (messageToJson msg)) sendOk subs, ?_,
          notifyLoop_no_lock _ _ subs⟩
        simp [hl]

/-- C3: for every event, registry and send-outcome oracle, `notifyClients`
attempts a send to every member of the event's room (the loop is not
aborted by failures), logs one failure line and invokes the stored
cancellation handle for exactly the members whose send fails, and issues
no response/error to its caller. -/
theorem notifyClients_send_failure_isolation (rgy : Registry) (msg : Message)
    (sendOk : Conn → Bool) :
    sendTargets (notifyClientsTrace rgy msg sendOk) = roomConns rgy msg.RoomID
    ∧ cancelTargets (notifyClientsTrace rgy msg sendOk)
        = ((roomMembers rgy msg.RoomID).filter (fun p => !sendOk p.1)).map Prod.snd
    ∧ errorLogs (notifyClientsTrace rgy msg sendOk)
        = ((roomMembers rgy msg.RoomID).filter (fun p => !sendOk p.1)).map
            (fun _ => "failed to send message to client")
    ∧ (notifyClientsTrace rgy msg sendOk).filter isRespondAct = [] := by
  refine ⟨?_, ?_, ?_, notifyClients_no_respond rgy msg sendOk⟩ <;>
    (simp only [notifyClientsTrace, roomConns, roomMembers]
     cases h : lookupRoom rgy msg.RoomID with
     | none => simp [sendTargets, cancelTargets, errorLogs]
     | some subs =>
         by_cases hl : subs.length = 0
         · have hs : subs = [] := List.length_eq_zero.mp hl
           subst hs
           simp [sendTargets, cancelTargets, errorLogs]
         · simp [hl, sendTargets, cancelTargets, errorLogs,
             sendTargets_append, cancelTargets_append, errorLogs_append,
             sendTargets_notifyLoop, cancelTargets_notifyLoop,
             errorLogs_notifyLoop])

/-- C5: every `WriteJSON` performed by a publish targets a connection
currently registered under the event's room, and in particular a
subscriber registered for room `R1` receives nothing when an event for a
different room `R2` is published. -/
theorem notifyClients_room_isolation (rgy : Registry) (msg : Message)
    (sendOk : Conn → Bool) (conn : Conn)
    (h : conn ∈ sendTargets (notifyClientsTrace rgy msg sendOk)) :
    conn ∈ roomConns rgy msg.RoomID
    ∧ sendTargets (notifyClientsTrace (register "R1" (some 1) 7 emptyRegistry)
        ⟨KindMessageCreated, EventValue.created "m1" "hi", "R2"⟩ sendOk) = [] := by
  constructor
  · have hs := (notifyClients_send_failure_isolation rgy msg sendOk).1
    rw [hs] at h
    exact h
  · rfl

/-- C5 witness: with one subscriber `some 1` in room `R` and a
`message_created` event for `R`, the subscriber that received the send is
indeed registered for `R`. -/
theorem notifyClients_room_isolation_witness :
    (some 1 : Conn) ∈ roomConns reg1 "R" :=
  (notifyClients_room_isolation reg1 msg1 (fun _ => true) (some 1) (by decide)).1

/-- C7: when the event's room has no members (key absent, or present and
empty), `notifyClients` only takes and releases the lock — no send, no
cancellation, no log, no response — and the registry it leaves behind is
the one it was given. -/
theorem notifyClients_no_subscribers_noop (rgy : Registry) (msg : Message)
    (sendOk : Conn → Bool) (h : roomMembers rgy msg.RoomID = []) :
    notifyClientsRun rgy msg sendOk = (rgy, [Act.lock, Act.unlock]) := by
  unfold notifyClientsRun notifyClientsTrace
  cases hl : lookupRoom rgy msg.RoomID with
  | none => rfl
  | some subs =>
      have hs : subs = [] := by
        have := h
        rw [roomMembers, hl] at this
        exact this
      subst hs
      rfl

/-- C7 witness: the empty registry has no members for room `R`, and
publishing there just locks and unlocks. -/
theorem notifyClients_no_subscribers_noop_witness :
    notifyClientsRun emptyRegistry msg1 (fun _ => true)
      = (emptyRegistry, [Act.lock, Act.unlock]) :=
  notifyClients_no_subscribers_noop emptyRegistry msg1 (fun _ => true) (by decide)

/-- C8: for every event of every kind, the serialized payload consists of
exactly the `kind` and `value` fields (the `json:"-"` tag drops `RoomID`),
and the value object's keys come from the kind-specific event structs —
`ID`/`Message`, `ID`/`Count`, or `ID` — never the room. -/
theorem event_payload_only_kind_and_value (m : Message) :
    objKeys (messageToJson m) = ["kind", "value"]
    ∧ (objKeys (valueToJson m.Value) = ["ID", "Message"]
       ∨ objKeys (valueToJson m.Value) = ["ID", "Count"]
       ∨ objKeys (valueToJson m.Value) = ["ID"]) := by
  refine ⟨rfl, ?_⟩
  cases hv : m.Value <;> simp [valueToJson, objKeys]

/-- C4 (counterexample): with a single subscriber in room `R` and a
`message_created` event built from id `m1` and text `hi`, the frame
written to the subscriber is not the claimed
`\x7b"kind":"message_created","value":\x7b"id":"m1","message":"hi"\x7d\x7d`:
the value structs carry no json tags, so Go marshals the exported field
names. -/
theorem delivered_frame_not_lowercase_cx :
    sendFrames (notifyClientsTrace reg1 msg1 (fun _ => true))
      ≠ ["\x7b\"kind\":\"message_created\",\"value\":\x7b\"id\":\"m1\",\"message\":\"hi\"\x7d\x7d"] := by
  decide

/-- C4 (amended): the single subscriber receives exactly one frame, equal
to `\x7b"kind":"message_created","value":\x7b"ID":"m1","Message":"hi"\x7d\x7d`
— the value object's field names are the Go exported identifiers `ID` and
`Message`, since `MessageCreatedEvent` declares no json tags. -/
theorem delivered_frame_exported_field_names :
    sendFrames (notifyClientsTrace reg1 msg1 (fun _ => true))
      = ["\x7b\"kind\":\"message_created\",\"value\":\x7b\"ID\":\"m1\",\"Message\":\"hi\"\x7d\x7d"] := by
  decide

/-- C9: for each of the four write handlers (create message, react,
unreact, mark answered), the HTTP response and log trace are computed
from the uri/binding and query-layer outcomes alone: the fire-and-forget
fan-out's registry and per-subscriber send outcomes never change the
handler's own outcome, and the fan-out itself emits no response that
could reach the client. -/
theorem write_response_independent_of_fanout (uriErr : Option String)
    (roomRes msgRes : DbResult Unit) (bodyRes : Except String String)
    (insertRes : Except Unit String) (reactRes removeRes : Except Unit Int)
    (markRes : Except Unit Unit) (room messageId : String)
    (rgy rgy2 : Registry) (sendOk sendOk2 : Conn → Bool) (m : Message) :
    (runWithFanout (handleCreateRoomMessage uriErr roomRes bodyRes insertRes room)
        rgy sendOk).1
      = (runWithFanout (handleCreateRoomMessage uriErr roomRes bodyRes insertRes room)
          rgy2 sendOk2).1
    ∧ (runWithFanout (handleReactToMessage uriErr roomRes msgRes reactRes room messageId)
        rgy sendOk).1
      = (runWithFanout (handleReactToMessage uriErr roomRes msgRes reactRes room messageId)
          rgy2 sendOk2).1
    ∧ (runWithFanout (handleRemoveReactionFromMessage uriErr roomRes msgRes removeRes
          room messageId) rgy sendOk).1
      = (runWithFanout (handleRemoveReactionFromMessage uriErr roomRes msgRes removeRes
          room messageId) rgy2 sendOk2).1
    ∧ (runWithFanout (handleMarkMessageAsAnswered uriErr roomRes msgRes markRes
          room messageId) rgy sendOk).1
      = (runWithFanout (handleMarkMessageAsAnswered uriErr roomRes msgRes markRes
          room messageId) rgy2 sendOk2).1
    ∧ (notifyClientsTrace rgy m sendOk).filter isRespondAct = [] :=
  ⟨rfl, rfl, rfl, rfl, notifyClients_no_respond rgy m sendOk⟩

/-- C10: `schema.GetMessageOutput` serializes the message text under the
json key `theme` (tag `json:"theme"`), with no `message` key, and both
the get-message and list-room-messages endpoints build their success
bodies from exactly this serialization for every returned message. -/
theorem message_text_serialized_as_theme (o : GetMessageOutput)
    (row : MessageRow) (rows : List MessageRow) (messageId : String) :
    objLookup "theme" (getMessageOutputToJson o) = some (JValue.str o.Message)
    ∧ objLookup "message" (getMessageOutputToJson o) = none
    ∧ handleGetRoomMessage none (DbResult.ok ()) (DbResult.ok row) messageId
        = [Act.respond 200 (getMessageOutputToJson
            ⟨messageId, row.message, row.reactionCount, row.answered⟩)]
    ∧ handleGetRoomMessages none (DbResult.ok ()) (Except.ok rows)
        = [Act.respond 200 (JValue.arr (rows.map (fun r =>
            getMessageOutputToJson ⟨r.id, r.message, r.reactionCount, r.answered⟩)))] :=
  ⟨rfl, rfl, rfl, rfl⟩

/-- C1 (code bug): valid uri, existing room, but the upgrade fails
(`Except.error "bad handshake"`). The handler logs the warning and writes
the 400 response, but — lacking a `return` in that branch — still
registers the nil connection under the room (the registry during the
Active phase holds `none`), blocks on the context, and deregisters, so
registration, blocking and deregistration all occur, contradicting the
claim that no further session work happens. -/
theorem subscribe_upgrade_failure_still_registers :
    roomConns (handleSubscribe none (DbResult.ok ())
        (Except.error "bad handshake") "R" 5 emptyRegistry).duringActive "R" = [none]
    ∧ ((handleSubscribe none (DbResult.ok ())
        (Except.error "bad handshake") "R" 5 emptyRegistry).acts.filter
          isRegisterAct).length = 1
    ∧ ((handleSubscribe none (DbResult.ok ())
        (Except.error "bad handshake") "R" 5 emptyRegistry).acts.filter
          isBlockAct).length = 1
    ∧ ((handleSubscribe none (DbResult.ok ())
        (Except.error "bad handshake") "R" 5 emptyRegistry).acts.filter
          isRespondAct).length = 1 := by
  refine ⟨by decide, by decide, by decide, ?_⟩
  decide

/-! ## Registry algebra -/

theorem lookup_updateRoom (room : String)
    (g : List (Conn × Nat) → List (Conn × Nat))
    (entries : List (String × List (Conn × Nat))) (r : String) :
    lookupRoom ⟨updateRoom room g entries⟩ r
      = if r = room then (lookupRoom ⟨entries⟩ room).map g
        else lookupRoom ⟨entries⟩ r := by
  have hmap : List.find? (fun e => e.1 == r) (updateRoom room g entries)
      = (List.find? (fun e => e.1 == r) entries).map
          (fun e => if e.1 = room then (e.1, g e.2) else e) := by
    rw [updateRoom, List.find?_map]
    have hpred : ((fun (e : String × List (Conn × Nat)) => e.1 == r) ∘
        fun (e : String × List (Conn × Nat)) =>
          if e.1 = room then (e.1, g e.2) else e)
        = fun (e : String × List (Conn × Nat)) => e.1 == r := by
      funext e
      by_cases he : e.1 = room <;> simp [Function.comp, he]
    rw [hpred]
  by_cases hr : r = room
  · subst hr
    rw [lookupRoom, hmap]
    cases hf : List.find? (fun e => e.1 == r) entries with
    | none => simp [lookupRoom, hf]
    | some a =>
        have ha : a.1 = r := by
          have hp := List.find?_some hf
          simpa using hp
        simp [lookupRoom, hf, ha]
  · rw [lookupRoom, hmap]
    cases hf : List.find? (fun e => e.1 == r) entries with
    | none => simp [lookupRoom, hf, hr]
    | some a =>
        have ha : a.1 = r := by
          have hp := List.find?_some hf
          simpa using hp
        have hne : ¬ a.1 = room := by
          rw [ha]
          exact hr
        simp [lookupRoom, hf, hr, hne]

theorem lookupRoom_append_new (rgy : Registry) (room r : String)
    (h : lookupRoom rgy room = none) :
    lookupRoom ⟨rgy.entries ++ [(room, [])]⟩ r
      = if r = room then some [] else lookupRoom rgy r := by
  have hfind : List.find? (fun e => e.1 == room) rgy.entries = none := by
    rw [lookupRoom] at h
    exact Option.map_eq_none'.mp h
  by_cases hr : r = room
  · subst hr
    rw [lookupRoom, List.find?_append, hfind]
    simp
  · have h2 : List.find?
        (fun (e : String × List (Conn × Nat)) => e.1 == r) [(room, [])] = none := by
      have hb : (room == r) = false := by
        simp only [beq_eq_false_iff_ne, ne_eq]
        exact fun hh => hr hh.symm
      simp [List.find?, hb]
    rw [lookupRoom, List.find?_append, h2]
    simp [lookupRoom, hr]

theorem lookupRoom_register (room : String) (conn : Conn) (c : Nat)
    (rgy : Registry) (r : String) :
    lookupRoom (register room conn c rgy) r
      = if r = room then some (insertConn conn c (roomMembers rgy room))
        else lookupRoom rgy r := by
  cases hf : lookupRoom rgy room with
  | some l =>
      have hreg : register room conn c rgy
          = ⟨updateRoom room (insertConn conn c) rgy.entries⟩ := by
        rw [register, hf]
      rw [hreg, lookup_updateRoom]
      by_cases hr : r = room
      · subst hr
        simp [hf, roomMembers]
      · simp [hr]
  | none =>
      have hreg : register room conn c rgy
          = ⟨updateRoom room (insertConn conn c) (rgy.entries ++ [(room, [])])⟩ := by
        rw [register, hf]
      rw [hreg]
      have hlu := lookup_updateRoom room (insertConn conn c)
        (rgy.entries ++ [(room, [])])
      by_cases hr : r = room
      · subst hr
        rw [hlu r]
        have hnew := lookupRoom_append_new rgy r r hf
        simp only [if_pos rfl] at hnew ⊢
        rw [hnew]
        simp [roomMembers, hf]
      · rw [hlu r]
        have hnew := lookupRoom_append_new rgy room r hf
        simp only [if_neg hr] at hnew ⊢
        exact hnew

theorem lookupRoom_deregister (room : String) (conn : Conn) (rgy : Registry)
    (r : String) :
    lookupRoom (deregister room conn rgy) r
      = if r = room then (lookupRoom rgy room).map (removeConn conn)
        else lookupRoom rgy r := by
  rw [deregister]
  exact lookup_updateRoom room (removeConn conn) rgy.entries r

theorem roomMembers_register (room : String) (conn : Conn) (c : Nat)
    (rgy : Registry) (r : String) :
    roomMembers (register room conn c rgy) r
      = if r = room then insertConn conn c (roomMembers rgy room)
        else roomMembers rgy r := by
  rw [roomMembers, lookupRoom_register]
  by_cases hr : r = room <;> simp [hr, roomMembers]

theorem roomMembers_deregister (room : String) (conn : Conn) (rgy : Registry)
    (r : String) :
    roomMembers (deregister room conn rgy) r
      = if r = room then removeConn conn (roomMembers rgy room)
        else roomMembers rgy r := by
  rw [roomMembers, lookupRoom_deregister]
  by_cases hr : r = room
  · subst hr
    cases hf : lookupRoom rgy r <;> simp [roomMembers, hf, removeConn]
  · simp [hr, roomMembers]

theorem insertConn_keys (conn : Conn) (c : Nat) :
    ∀ l : List (Conn × Nat),
      (insertConn conn c l).map Prod.fst = insertKey conn (l.map Prod.fst) := by
  intro l
  induction l with
  | nil => simp [insertConn, insertKey]
  | cons p rest ih =>
      by_cases h : p.1 = conn
      · simp [insertConn, h, insertKey]
      · have h1 : ¬ conn = p.1 := fun hh => h hh.symm
        by_cases hm : conn ∈ rest.map Prod.fst <;>
          simp [insertConn, h, insertKey, ih, hm, h1]

theorem removeConn_keys (conn : Conn) :
    ∀ l : List (Conn × Nat),
      (removeConn conn l).map Prod.fst = removeKey conn (l.map Prod.fst) := by
  intro l
  induction l with
  | nil => rfl
  | cons p rest ih =>
      by_cases h : p.1 = conn <;> simp [removeConn, removeKey, h, ih]

theorem roomConns_register (room : String) (conn : Conn) (c : Nat)
    (rgy : Registry) (r : String) :
    roomConns (register room conn c rgy) r
      = if r = room then insertKey conn (roomConns rgy room)
        else roomConns rgy r := by
  rw [roomConns, roomMembers_register]
  by_cases hr : r = room <;> simp [hr, roomConns, insertConn_keys]

theorem roomConns_deregister (room : String) (conn : Conn) (rgy : Registry)
    (r : String) :
    roomConns (deregister room conn rgy) r
      = if r = room then removeKey conn (roomConns rgy room)
        else roomConns rgy r := by
  rw [roomConns, roomMembers_deregister]
  by_cases hr : r = room <;> simp [hr, roomConns, removeConn_keys]

theorem insertKey_idem (conn : Conn) (ks : List Conn) :
    insertKey conn (insertKey conn ks) = insertKey conn ks := by
  by_cases h : conn ∈ ks
  · simp [insertKey, h]
  · simp [insertKey, h, List.mem_append]

theorem not_mem_removeKey (conn : Conn) :
    ∀ ks : List Conn, conn ∉ removeKey conn ks := by
  intro ks
  induction ks with
  | nil => simp [removeKey]
  | cons k rest ih =>
      by_cases h : k = conn
      · simp [removeKey, h, ih]
      · simp only [removeKey, if_neg h, List.mem_cons]
        rintro (hh | hh)
        · exact h hh.symm
        · exact ih hh

theorem removeKey_of_not_mem (conn : Conn) :
    ∀ ks : List Conn, conn ∉ ks → removeKey conn ks = ks := by
  intro ks
  induction ks with
  | nil => intro _; rfl
  | cons k rest ih =>
      intro h
      have h1 : ¬ k = conn := by
        intro hh
        exact h (by rw [hh]; exact List.mem_cons_self conn rest)
      have h2 : conn ∉ rest := fun hh => h (List.mem_cons_of_mem _ hh)
      simp [removeKey, h1, ih h2]

theorem removeKey_idem (conn : Conn) (ks : List Conn) :
    removeKey conn (removeKey conn ks) = removeKey conn ks :=
  removeKey_of_not_mem conn _ (not_mem_removeKey conn ks)

theorem count_insertKey (conn : Conn) (ks : List Conn)
    (h : ks.count conn ≤ 1) : (insertKey conn ks).count conn ≤ 1 := by
  by_cases hm : conn ∈ ks
  · simpa [insertKey, hm] using h
  · have h0 : ks.count conn = 0 := List.count_eq_zero.mpr hm
    simp [insertKey, hm, List.count_append, h0]

theorem count_removeKey (conn : Conn) (ks : List Conn) :
    (removeKey conn ks).count conn = 0 :=
  List.count_eq_zero.mpr (not_mem_removeKey conn ks)

theorem applyKey_applyKey (conn : Conn) (ks : List Conn) (o p : RegOp)
    (h : sameKind o p = true) :
    applyKey conn (applyKey conn ks o) p = applyKey conn ks o := by
  cases o with
  | reg c1 =>
      cases p with
      | reg c2 => exact insertKey_idem conn ks
      | dereg => simp [sameKind] at h
  | dereg =>
      cases p with
      | reg c2 => simp [sameKind] at h
      | dereg => exact removeKey_idem conn ks

theorem foldl_applyKey_collapseOps (conn : Conn) :
    ∀ (ops : List RegOp) (ks : List Conn),
      (collapseOps ops).foldl (applyKey conn) ks
        = ops.foldl (applyKey conn) ks := by
  intro ops
  induction ops using collapseOps.induct with
  | case1 => intro ks; rw [collapseOps]
  | case2 o => intro ks; rw [collapseOps]
  | case3 o p rest h ih =>
      intro ks
      rw [collapseOps, if_pos h, ih]
      simp only [List.foldl_cons]
      rw [applyKey_applyKey conn ks o p h]
  | case4 o p rest h ih =>
      intro ks
      rw [collapseOps, if_neg h]
      simp only [List.foldl_cons]
      exact ih (applyKey conn ks o)

theorem roomConns_applySeq (room : String) (conn : Conn) :
    ∀ (ops : List RegOp) (rgy : Registry) (r : String),
      roomConns (applySeq room conn ops rgy) r
        = if r = room then ops.foldl (applyKey conn) (roomConns rgy room)
          else roomConns rgy r := by
  intro ops
  induction ops with
  | nil =>
      intro rgy r
      by_cases hr : r = room <;> simp [applySeq, hr]
  | cons o rest ih =>
      intro rgy r
      have hstep : applySeq room conn (o :: rest) rgy
          = applySeq room conn rest (applyOp room conn rgy o) := by
        simp [applySeq]
      rw [hstep, ih]
      by_cases hr : r = room
      · subst hr
        cases o with
        | reg c => simp [applyOp, roomConns_register, applyKey]
        | dereg => simp [applyOp, roomConns_deregister, applyKey]
      · cases o with
        | reg c => simp [applyOp, roomConns_register, hr]
        | dereg => simp [applyOp, roomConns_deregister, hr]

theorem count_foldl_applyKey (conn : Conn) :
    ∀ (ops : List RegOp) (ks : List Conn), ks.count conn ≤ 1 →
      (ops.foldl (applyKey conn) ks).count conn ≤ 1 := by
  intro ops
  induction ops with
  | nil => intro ks h; exact h
  | cons o rest ih =>
      intro ks h
      simp only [List.foldl_cons]
      apply ih
      cases o with
      | reg c => exact count_insertKey conn ks h
      | dereg =>
          have := count_removeKey conn ks
          simp [applyKey, this]

theorem removeConn_of_not_mem (conn : Conn) :
    ∀ l : List (Conn × Nat), conn ∉ l.map Prod.fst → removeConn conn l = l := by
  intro l
  induction l with
  | nil => intro _; rfl
  | cons p rest ih =>
      intro h
      simp only [List.map_cons, List.mem_cons] at h
      push_neg at h
      have h1 : ¬ p.1 = conn := fun hh => h.1 hh.symm
      simp [removeConn, h1, ih h.2]

/-- C6: the registry's membership after any register/deregister sequence
on one (room, connection) pair equals the membership after collapsing
consecutive duplicate calls; deregistering an absent connection leaves
every room lookup unchanged (no-op); and any sequence applied to the
empty registry leaves at most one membership entry for the connection
(duplicate register overwrites rather than duplicates). -/
theorem registry_sequence_collapse (room : String) (conn : Conn)
    (ops : List RegOp) (rgy : Registry) :
    (∀ r, roomConns (applySeq room conn ops rgy) r
        = roomConns (applySeq room conn (collapseOps ops) rgy) r)
    ∧ (conn ∉ roomConns rgy room →
        ∀ r, lookupRoom (deregister room conn rgy) r = lookupRoom rgy r)
    ∧ List.count conn
        (roomConns (applySeq room conn ops emptyRegistry) room) ≤ 1 := by
  refine ⟨?_, ?_, ?_⟩
  · intro r
    rw [roomConns_applySeq, roomConns_applySeq]
    by_cases hr : r = room
    · simp [hr, foldl_applyKey_collapseOps]
    · simp [hr]
  · intro h r
    rw [lookupRoom_deregister]
    by_cases hr : r = room
    · subst hr
      cases hf : lookupRoom rgy r with
      | none => simp
      | some l =>
          have hm : conn ∉ l.map Prod.fst := by
            rw [roomConns, roomMembers, hf] at h
            simpa using h
          simp [removeConn_of_not_mem conn l hm]
    · simp [hr]
  · rw [roomConns_applySeq]
    simp only [if_pos rfl]
    apply count_foldl_applyKey
    simp [roomConns, roomMembers, lookupRoom, emptyRegistry]

/-- C6 witness: a concrete duplicate-heavy sequence on (room `R`,
connection `some 1`) applied to the empty registry, and the deregister
no-op discharged on the empty registry. -/
theorem registry_sequence_collapse_witness :
    (∀ r, roomConns (applySeq "R" (some 1)
        [RegOp.reg 3, RegOp.reg 4, RegOp.dereg, RegOp.dereg] emptyRegistry) r
      = roomConns (applySeq "R" (some 1)
          (collapseOps [RegOp.reg 3, RegOp.reg 4, RegOp.dereg, RegOp.dereg])
          emptyRegistry) r)
    ∧ (∀ r, lookupRoom (deregister "R" (some 1) emptyRegistry) r
        = lookupRoom emptyRegistry r)
    ∧ List.count (some 1 : Conn) (roomConns (applySeq "R" (some 1)
        [RegOp.reg 3, RegOp.reg 4, RegOp.dereg, RegOp.dereg] emptyRegistry)
        "R") ≤ 1 :=
  ⟨(registry_sequence_collapse "R" (some 1)
      [RegOp.reg 3, RegOp.reg 4, RegOp.dereg, RegOp.dereg] emptyRegistry).1,
   (registry_sequence_collapse "R" (some 1)
      [RegOp.reg 3, RegOp.reg 4, RegOp.dereg, RegOp.dereg] emptyRegistry).2.1
      (by decide),
   (registry_sequence_collapse "R" (some 1)
      [RegOp.reg 3, RegOp.reg 4, RegOp.dereg, RegOp.dereg] emptyRegistry).2.2⟩

end AskMeAnything
